import Mathlib

/-!
Shallow embedding of the Solo Leveling productivity backend (src/main.py,
src/schemas.py).

The document store is modelled as lists of records (one list per collection:
hunter, stats, quest, log).  Mongo ObjectIds are modelled as opaque strings
(the code only compares them and serializes them).  `find_one` is
`List.find?`; `insert_one` appends; `update_one` replaces the first matching
record.  Machine integers are Python arbitrary-precision ints; fields
declared `ge=0` in schemas.py (level, exp, total_exp, exp_reward) are
modelled as `Nat`, stat counters and `stat_reward` deltas as `Int`
(stat_reward is a plain `Dict[str, int]`).  Timestamps are abstracted as a
`Nat` passed in as `now`.  `HTTPException` is an `Except` error value; each
endpoint returns its result together with the (possibly updated) store, so
that writes performed before an exception would be visible.
-/

-- main.py line 23
def LEVEL_STEP : Nat := 100

-- main.py line 24
def RANKS : List String := ["E", "D", "C", "B", "A", "S", "Shadow Monarch"]

/-- Position of a rank in the `RANKS` ladder (used to state monotonicity). -/
def rankIndex (r : String) : Nat := RANKS.indexOf r

-- main.py lines 42-55
def compute_rank (level : Nat) : String :=
  if level ≥ 30 then "Shadow Monarch"
  else if level ≥ 25 then "S"
  else if level ≥ 20 then "A"
  else if level ≥ 15 then "B"
  else if level ≥ 10 then "C"
  else if level ≥ 5 then "D"
  else "E"

/-- A `hunter` collection document (schemas.py `Hunter`, main.py lines
117-128).  `created_at` is omitted; `updated_at` is kept because claims talk
about it. -/
structure Hunter where
  id : String
  display_name : String
  email : Option String
  rank : String
  level : Nat
  exp : Nat
  total_exp : Nat
  energy : Nat
  title : Option String
  updated_at : Nat
deriving DecidableEq, Repr

/-- A `stats` collection document (schemas.py `Stats`).  The claim code
treats the document as a plain dict of counters keyed by stat name
(main.py lines 258-265), so the counters are an association list. -/
structure Stats where
  hunter_id : String
  counters : List (String × Int)
  updated_at : Nat
deriving DecidableEq, Repr

/-- A `quest` collection document (schemas.py `Quest`). -/
structure Quest where
  id : String
  hunter_id : String
  title : String
  type : String
  exp_reward : Nat
  stat_reward : List (String × Int)
  status : String
  updated_at : Nat
deriving DecidableEq, Repr

/-- A `log` collection document (schemas.py `Log`). -/
structure LogEntry where
  hunter_id : String
  message : String
  level : String
  created_at : Nat
deriving DecidableEq, Repr

/-- The document store: one list per collection. -/
structure DB where
  hunters : List Hunter
  stats : List Stats
  quests : List Quest
  logs : List LogEntry
deriving DecidableEq, Repr

/-- `HTTPException(status_code=404, detail=...)`. -/
inductive ApiError where
  | notFound (detail : String)
deriving DecidableEq, Repr

/-- Mongo `update_one`: rewrite the first record matching the filter. -/
def updateFirst (p : α → Bool) (f : α → α) : List α → List α
  | [] => []
  | x :: xs => if p x then f x :: xs else x :: updateFirst p f xs

/-- Python `stats.get(k, 0)` on the counters dict. -/
def getStat (cs : List (String × Int)) (k : String) : Int :=
  match cs with
  | [] => 0
  | p :: rest => if p.1 = k then p.2 else getStat rest k

/-- Python `stats[k] = v` on the counters dict. -/
def setStat (cs : List (String × Int)) (k : String) (v : Int) : List (String × Int) :=
  match cs with
  | [] => [(k, v)]
  | p :: rest => if p.1 = k then (k, v) :: rest else p :: setStat rest k v

/-- main.py lines 262-263: `for k, v in stat_reward.items(): stats[k] =
int(stats.get(k, 0)) + int(v)`. -/
def applyStatReward (cs : List (String × Int)) (reward : List (String × Int)) :
    List (String × Int) :=
  reward.foldl (fun acc kv => setStat acc kv.1 (getStat acc kv.1 + kv.2)) cs

/-- main.py lines 242-246: `while new_exp >= LEVEL_STEP: new_exp -=
LEVEL_STEP; level += 1; leveled_up = True`.  Returns the final
`(new_exp, level, leveled_up)`. -/
def levelLoop (new_exp level : Nat) (leveled_up : Bool) : Nat × Nat × Bool :=
  if h : new_exp ≥ LEVEL_STEP then
    levelLoop (new_exp - LEVEL_STEP) (level + 1) true
  else
    (new_exp, level, leveled_up)
termination_by new_exp
decreasing_by simp only [LEVEL_STEP] at *; omega

/-- Python truthiness of `payload.email` in `payload.email if payload.email
else ...` (main.py line 112): `None` and the empty string are falsy. -/
def emailTruthy : Option String → Bool
  | none => false
  | some s => s ≠ ""

/-- main.py line 112: `query = {"email": payload.email} if payload.email
else {"display_name": payload.display_name}`. -/
def hunterQuery (display_name : String) (email : Option String) : Hunter → Bool :=
  if emailTruthy email then fun h => h.email == email
  else fun h => h.display_name == display_name

/-- main.py lines 117-128: the defaults of a freshly created hunter. -/
def defaultHunter (display_name : String) (email : Option String)
    (newId : String) (now : Nat) : Hunter :=
  { id := newId, display_name := display_name, email := email, rank := "E",
    level := 1, exp := 0, total_exp := 0, energy := 100, title := none,
    updated_at := now }

/-- main.py lines 132-141: the paired default stats document, all counters 1. -/
def defaultStats (newId : String) (now : Nat) : Stats :=
  { hunter_id := newId,
    counters := [("STR", 1), ("INT", 1), ("DEX", 1), ("STA", 1), ("LUK", 1)],
    updated_at := now }

/-- main.py lines 145-150: the "awakened" welcome log. -/
def welcomeLog (newId : String) (now : Nat) : LogEntry :=
  { hunter_id := newId, message := "System: You have awakened as a Hunter.",
    level := "success", created_at := now }

/-- main.py lines 109-153, POST /api/hunter.  `newId` stands for the
store-generated id of an inserted hunter; `now` for the wall clock. -/
def create_or_get_hunter (db : DB) (display_name : String) (email : Option String)
    (newId : String) (now : Nat) : Hunter × DB :=
  match db.hunters.find? (hunterQuery display_name email) with
  | some existing => (existing, db)
  | none =>
    (defaultHunter display_name email newId now,
     { db with hunters := db.hunters ++ [defaultHunter display_name email newId now],
               stats := db.stats ++ [defaultStats newId now],
               logs := db.logs ++ [welcomeLog newId now] })

/-- main.py lines 208-222, POST /api/quests/\x7bquest_id\x7d/complete. -/
def complete_quest (db : DB) (quest_id : String) (now : Nat) :
    Except ApiError String × DB :=
  match db.quests.find? (fun q => q.id == quest_id) with
  | none => (Except.error (ApiError.notFound "Quest not found"), db)
  | some q =>
    if q.status == "completed" || q.status == "claimed" then
      (Except.ok q.status, db)
    else
      let qs := updateFirst (fun x => x.id == q.id)
        (fun x => { x with status := "completed", updated_at := now }) db.quests
      let db1 : DB := { db with quests := qs }
      let entry : LogEntry :=
        { hunter_id := q.hunter_id, message := "Quest completed: " ++ q.title,
          level := "success", created_at := now }
      (Except.ok "completed", { db1 with logs := db1.logs ++ [entry] })

/-- Response of POST /api/quests/\x7bquest_id\x7d/claim: either the bare
no-op `\x7b"status": "claimed"\x7d` (main.py line 231) or the full payload of
line 285. -/
inductive ClaimResponse where
  | alreadyClaimed
  | claimed (level : Nat) (rank : String) (exp : Nat) (total_exp : Nat)
deriving DecidableEq, Repr

/-- main.py line 274: the "Level Up!" log message. -/
def levelUpMessage (level : Nat) (rank : String) : String :=
  "Level Up! You are now Level " ++ toString level ++ " — Rank " ++ rank ++ "."

/-- main.py line 280: the reward-summary log message. -/
def rewardMessage (exp_reward : Nat) (stat_reward : List (String × Int)) : String :=
  "Rewards claimed: +" ++ toString exp_reward ++ " EXP" ++
    (if stat_reward.isEmpty then "" else ", +" ++ toString stat_reward ++ " stats")

/-- main.py lines 225-285, POST /api/quests/\x7bquest_id\x7d/claim. -/
def claim_quest (db : DB) (quest_id : String) (now : Nat) :
    Except ApiError ClaimResponse × DB :=
  match db.quests.find? (fun q => q.id == quest_id) with
  | none => (Except.error (ApiError.notFound "Quest not found"), db)
  | some q =>
    if q.status == "claimed" then (Except.ok ClaimResponse.alreadyClaimed, db)
    else
      match db.hunters.find? (fun h => h.id == q.hunter_id) with
      | none => (Except.error (ApiError.notFound "Hunter not found"), db)
      | some hunter =>
        let new_total := hunter.total_exp + q.exp_reward
        let r := levelLoop (hunter.exp + q.exp_reward) hunter.level false
        let new_exp := r.1
        let level := r.2.1
        let leveled_up := r.2.2
        let new_rank := compute_rank level
        let hs := updateFirst (fun h => h.id == hunter.id)
          (fun h => { h with exp := new_exp, total_exp := new_total,
                             level := level, rank := new_rank,
                             updated_at := now }) db.hunters
        let db1 : DB := { db with hunters := hs }
        let stat_reward := q.stat_reward
        let db2 : DB :=
          if stat_reward.isEmpty then db1
          else
            match db1.stats.find? (fun s => s.hunter_id == hunter.id) with
            | some s =>
              let merged : Stats :=
                { s with counters := applyStatReward s.counters stat_reward,
                         updated_at := now }
              { db1 with stats :=
                  updateFirst (fun t => t.hunter_id == hunter.id) (fun _ => merged) db1.stats }
            | none =>
              let merged : Stats :=
                { hunter_id := hunter.id,
                  counters := applyStatReward [] stat_reward, updated_at := now }
              { db1 with stats := db1.stats ++ [merged] }
        let qs := updateFirst (fun x => x.id == q.id)
          (fun x => { x with status := "claimed", updated_at := now }) db2.quests
        let db3 : DB := { db2 with quests := qs }
        let db4 : DB :=
          if leveled_up then
            { db3 with logs := db3.logs ++
                [{ hunter_id := hunter.id, message := levelUpMessage level new_rank,
                   level := "success", created_at := now }] }
          else db3
        let db5 : DB :=
          { db4 with logs := db4.logs ++
              [{ hunter_id := hunter.id, message := rewardMessage q.exp_reward stat_reward,
                 level := "info", created_at := now }] }
        (Except.ok (ClaimResponse.claimed level new_rank new_exp new_total), db5)

/-- The store produced by the non-no-op branch of `claim_quest`, written in
closed form (`levelLoop` resolved to remainder/quotient).  Used as the
right-hand side of `claim_quest_success`. -/
def claimDB (db : DB) (q : Quest) (hu : Hunter) (now : Nat) : DB :=
  let N := hu.exp + q.exp_reward
  let newLevel := hu.level + N / 100
  let new_rank := compute_rank newLevel
  let hs := updateFirst (fun h => h.id == hu.id)
    (fun h => { h with exp := N % 100, total_exp := hu.total_exp + q.exp_reward,
                       level := newLevel, rank := new_rank, updated_at := now }) db.hunters
  let stats2 :=
    if q.stat_reward.isEmpty then db.stats
    else
      match db.stats.find? (fun t => t.hunter_id == hu.id) with
      | some s =>
        updateFirst (fun t => t.hunter_id == hu.id)
          (fun _ => { s with counters := applyStatReward s.counters q.stat_reward,
                             updated_at := now }) db.stats
      | none =>
        db.stats ++ [{ hunter_id := hu.id, counters := applyStatReward [] q.stat_reward,
                       updated_at := now }]
  let qs := updateFirst (fun x => x.id == q.id)
    (fun x => { x with status := "claimed", updated_at := now }) db.quests
  let lvlLogs : List LogEntry :=
    if 100 ≤ N then
      [{ hunter_id := hu.id, message := levelUpMessage newLevel new_rank,
         level := "success", created_at := now }]
    else []
  { hunters := hs, stats := stats2, quests := qs,
    logs := db.logs ++ lvlLogs ++
      [{ hunter_id := hu.id, message := rewardMessage q.exp_reward q.stat_reward,
         level := "info", created_at := now }] }

/-!  Helper lemmas about the store primitives. -/

theorem find?_updateFirst {α : Type} (p : α → Bool) (f : α → α) (l : List α) (x : α)
    (hx : l.find? p = some x) (hf : p (f x) = true) :
    (updateFirst p f l).find? p = some (f x) := by
  induction l with
  | nil => simp at hx
  | cons a t ih =>
    by_cases hpa : p a
    · rw [List.find?_cons_of_pos _ hpa] at hx
      injection hx with hx
      subst hx
      simp [updateFirst, hpa, List.find?_cons_of_pos _ hf]
    · rw [List.find?_cons_of_neg _ hpa] at hx
      simp only [updateFirst, hpa, if_neg, Bool.false_eq_true, if_false]
      rw [List.find?_cons_of_neg _ hpa]
      exact ih hx

theorem mem_updateFirst {α : Type} {P : α → Prop} (p : α → Bool) (f : α → α)
    (l : List α) (hl : ∀ y ∈ l, P y) (hf : ∀ y, P (f y)) :
    ∀ y ∈ updateFirst p f l, P y := by
  induction l with
  | nil => intro y hy; simp [updateFirst] at hy
  | cons a t ih =>
    intro y hy
    by_cases hpa : p a
    · simp only [updateFirst, hpa, if_true] at hy
      rcases List.mem_cons.mp hy with h | h
      · subst h; exact hf a
      · exact hl y (List.mem_cons_of_mem _ h)
    · simp only [updateFirst, hpa, Bool.false_eq_true, if_false] at hy
      rcases List.mem_cons.mp hy with h | h
      · subst h; exact hl _ (List.mem_cons_self _ _)
      · exact ih (fun z hz => hl z (List.mem_cons_of_mem _ hz)) y h

theorem find?_append_of_none {α : Type} (p : α → Bool) (l1 l2 : List α)
    (h : l1.find? p = none) : (l1 ++ l2).find? p = l2.find? p := by
  induction l1 with
  | nil => simp
  | cons a t ih =>
    by_cases hpa : p a
    · rw [List.find?_cons_of_pos _ hpa] at h; exact absurd h (by simp)
    · rw [List.find?_cons_of_neg _ hpa] at h
      rw [List.cons_append, List.find?_cons_of_neg _ hpa]
      exact ih h

/-!  Helper lemmas about the counters dict. -/

theorem getStat_setStat_self (cs : List (String × Int)) (k : String) (v : Int) :
    getStat (setStat cs k v) k = v := by
  induction cs with
  | nil => simp [setStat, getStat]
  | cons p rest ih =>
    by_cases h : p.1 = k
    · simp [setStat, getStat, h]
    · simp [setStat, getStat, h, ih]

theorem getStat_setStat_ne (cs : List (String × Int)) (k k' : String) (v : Int)
    (h : k' ≠ k) : getStat (setStat cs k v) k' = getStat cs k' := by
  have hkk : ¬ (k = k') := fun hh => h hh.symm
  induction cs with
  | nil => simp only [setStat, getStat, if_neg hkk]
  | cons p rest ih =>
    by_cases hp : p.1 = k
    · simp only [setStat, if_pos hp, getStat, hp, if_neg hkk]
    · simp only [setStat, if_neg hp, getStat, ih]

theorem applyStatReward_nil (cs : List (String × Int)) :
    applyStatReward cs [] = cs := rfl

theorem applyStatReward_cons (cs : List (String × Int)) (r : String × Int)
    (rest : List (String × Int)) :
    applyStatReward cs (r :: rest) =
      applyStatReward (setStat cs r.1 (getStat cs r.1 + r.2)) rest := rfl

theorem getStat_applyStatReward_of_notMem (reward : List (String × Int)) :
    ∀ (cs : List (String × Int)) (k : String), (∀ kv ∈ reward, kv.1 ≠ k) →
      getStat (applyStatReward cs reward) k = getStat cs k := by
  induction reward with
  | nil => intro cs k _; rfl
  | cons r rest ih =>
    intro cs k hk
    rw [applyStatReward_cons, ih _ k (fun kv hkv => hk kv (List.mem_cons_of_mem _ hkv)),
        getStat_setStat_ne _ _ _ _ (fun hh => hk r (List.mem_cons_self r rest) hh.symm)]

theorem getStat_applyStatReward_of_mem (reward : List (String × Int)) :
    ∀ (cs : List (String × Int)), (reward.map Prod.fst).Nodup →
      ∀ kv ∈ reward, getStat (applyStatReward cs reward) kv.1 = getStat cs kv.1 + kv.2 := by
  induction reward with
  | nil => intro cs _ kv h; simp at h
  | cons r rest ih =>
    intro cs hnd kv hkv
    rw [List.map_cons, List.nodup_cons] at hnd
    rcases List.mem_cons.mp hkv with h | h
    · subst h
      rw [applyStatReward_cons,
          getStat_applyStatReward_of_notMem rest _ kv.1
            (fun p hp hpk => hnd.1 (hpk ▸ List.mem_map_of_mem Prod.fst hp)),
          getStat_setStat_self]
    · have hne : kv.1 ≠ r.1 := fun hh =>
        hnd.1 (hh ▸ List.mem_map_of_mem Prod.fst h)
      rw [applyStatReward_cons, ih _ hnd.2 kv h,
          getStat_setStat_ne _ _ _ _ hne]

/-- The loop computes remainder, quotient and a crossed-a-boundary flag. -/
theorem levelLoop_eq (e : Nat) : ∀ (l : Nat) (b : Bool),
    levelLoop e l b = (e % 100, l + e / 100, b || decide (100 ≤ e)) := by
  induction e using Nat.strong_induction_on with
  | _ e ih =>
    intro l b
    rw [levelLoop.eq_def]
    simp only [LEVEL_STEP, ge_iff_le]
    split
    · rename_i h
      rw [ih (e - 100) (by omega)]
      have h1 : (e - 100) % 100 = e % 100 := by omega
      have h2 : (l + 1) + (e - 100) / 100 = l + e / 100 := by omega
      simp [h1, h2, h]
    · rename_i h
      have h1 : e % 100 = e := by omega
      have h2 : e / 100 = 0 := by omega
      simp [h1, h2, h]

/-- On the non-no-op path (quest found, not yet claimed, hunter found),
`claim_quest` returns the full reward payload and the store `claimDB`. -/
theorem claim_quest_success (db : DB) (qid : String) (now : Nat) (q : Quest) (hu : Hunter)
    (hq : db.quests.find? (fun x => x.id == qid) = some q)
    (hst : q.status ≠ "claimed")
    (hh : db.hunters.find? (fun x => x.id == q.hunter_id) = some hu) :
    claim_quest db qid now =
      (Except.ok (ClaimResponse.claimed
          (hu.level + (hu.exp + q.exp_reward) / 100)
          (compute_rank (hu.level + (hu.exp + q.exp_reward) / 100))
          ((hu.exp + q.exp_reward) % 100)
          (hu.total_exp + q.exp_reward)),
       claimDB db q hu now) := by
  unfold claim_quest
  rw [hq]
  simp only [beq_iff_eq, if_neg hst]
  rw [hh]
  simp only [levelLoop_eq, Bool.false_or]
  unfold claimDB
  by_cases hlev : 100 ≤ hu.exp + q.exp_reward
  · simp only [decide_eq_true hlev, if_true, if_pos hlev]
    by_cases hempty : q.stat_reward.isEmpty = true
    · simp only [hempty, if_true]
    · simp only [hempty, Bool.false_eq_true, if_false]
      cases hfind : List.find? (fun s => s.hunter_id == hu.id) db.stats with
      | none => simp only [hfind]
      | some s => simp only [hfind]
  · simp only [decide_eq_false hlev, Bool.false_eq_true, if_false, if_neg hlev,
      List.append_nil]
    by_cases hempty : q.stat_reward.isEmpty = true
    · simp only [hempty, if_true]
    · simp only [hempty, Bool.false_eq_true, if_false]
      cases hfind : List.find? (fun s => s.hunter_id == hu.id) db.stats with
      | none => simp only [hfind]
      | some s => simp only [hfind]

/-- main.py lines 227-229: unknown quest id, nothing written. -/
theorem claim_quest_quest_missing (db : DB) (qid : String) (now : Nat)
    (hq : db.quests.find? (fun x => x.id == qid) = none) :
    claim_quest db qid now = (Except.error (ApiError.notFound "Quest not found"), db) := by
  unfold claim_quest
  rw [hq]

/-- main.py lines 230-231: already-claimed quest, nothing written. -/
theorem claim_quest_noop (db : DB) (qid : String) (now : Nat) (q : Quest)
    (hq : db.quests.find? (fun x => x.id == qid) = some q)
    (hcl : q.status = "claimed") :
    claim_quest db qid now = (Except.ok ClaimResponse.alreadyClaimed, db) := by
  unfold claim_quest
  rw [hq]
  simp [hcl]

/-- main.py lines 234-236: quest found and claimable but its hunter is
missing; the 404 is raised before any write. -/
theorem claim_quest_hunter_missing (db : DB) (qid : String) (now : Nat) (q : Quest)
    (hq : db.quests.find? (fun x => x.id == qid) = some q)
    (hst : q.status ≠ "claimed")
    (hh : db.hunters.find? (fun x => x.id == q.hunter_id) = none) :
    claim_quest db qid now = (Except.error (ApiError.notFound "Hunter not found"), db) := by
  unfold claim_quest
  rw [hq]
  simp only [beq_iff_eq, if_neg hst]
  rw [hh]

/-- The store produced by the acting branch of `complete_quest`. -/
def completeDB (db : DB) (q : Quest) (now : Nat) : DB :=
  let qs := updateFirst (fun x => x.id == q.id)
    (fun x => { x with status := "completed", updated_at := now }) db.quests
  { db with quests := qs,
            logs := db.logs ++
              [{ hunter_id := q.hunter_id, message := "Quest completed: " ++ q.title,
                 level := "success", created_at := now }] }

/-!  Concrete records used by the witnesses. -/

def hunterA : Hunter :=
  { id := "h1", display_name := "Jin", email := some "jin@hunters.io", rank := "E",
    level := 1, exp := 95, total_exp := 95, energy := 100, title := none, updated_at := 0 }

def statsA : Stats :=
  { hunter_id := "h1",
    counters := [("STR", 1), ("INT", 1), ("DEX", 1), ("STA", 1), ("LUK", 1)],
    updated_at := 0 }

def questA : Quest :=
  { id := "q1", hunter_id := "h1", title := "Workout 30 mins", type := "daily",
    exp_reward := 250, stat_reward := [("STR", 2)], status := "pending", updated_at := 0 }

def questClaimed : Quest :=
  { id := "q2", hunter_id := "h1", title := "Read 20 pages", type := "daily",
    exp_reward := 20, stat_reward := [], status := "claimed", updated_at := 0 }

def questOrphan : Quest :=
  { id := "q3", hunter_id := "ghost", title := "Lost quest", type := "daily",
    exp_reward := 10, stat_reward := [], status := "pending", updated_at := 0 }

def questDone : Quest :=
  { id := "q4", hunter_id := "h1", title := "Study 1 hour", type := "daily",
    exp_reward := 25, stat_reward := [("INT", 1)], status := "completed", updated_at := 0 }

def dbA : DB :=
  { hunters := [hunterA], stats := [statsA],
    quests := [questA, questClaimed, questOrphan, questDone], logs := [] }

/-- C1: for a hunter with level L ≥ 1, current-level exp E with 0 ≤ E < 100
and lifetime total T, claiming a not-yet-claimed quest with reward R yields
newLevel = L + ⌊(E+R)/100⌋, newExp = (E+R) mod 100 and newTotalExp = T + R;
the rollover is the repeated subtraction of LEVEL_STEP = 100 in `levelLoop`,
so one reward can cross several level boundaries. -/
theorem C1_claim_reward_arithmetic (db : DB) (qid : String) (now : Nat)
    (q : Quest) (hu : Hunter)
    (hq : db.quests.find? (fun x => x.id == qid) = some q)
    (hst : q.status ≠ "claimed")
    (hh : db.hunters.find? (fun x => x.id == q.hunter_id) = some hu)
    (hL : 1 ≤ hu.level) (hE : hu.exp < 100) :
    (claim_quest db qid now).1 =
      Except.ok (ClaimResponse.claimed
        (hu.level + (hu.exp + q.exp_reward) / 100)
        (compute_rank (hu.level + (hu.exp + q.exp_reward) / 100))
        ((hu.exp + q.exp_reward) % 100)
        (hu.total_exp + q.exp_reward)) ∧
    LEVEL_STEP = 100 := by
  refine ⟨?_, rfl⟩
  rw [claim_quest_success db qid now q hu hq hst hh]

/-- C1 witness: the spec scenario level 1, exp 95, reward 250 gives level 4,
exp 45, total 345. -/
theorem C1_witness :
    (claim_quest dbA "q1" 1).1 =
      Except.ok (ClaimResponse.claimed
        (hunterA.level + (hunterA.exp + questA.exp_reward) / 100)
        (compute_rank (hunterA.level + (hunterA.exp + questA.exp_reward) / 100))
        ((hunterA.exp + questA.exp_reward) % 100)
        (hunterA.total_exp + questA.exp_reward)) ∧
    LEVEL_STEP = 100 :=
  C1_claim_reward_arithmetic dbA "q1" 1 questA hunterA (by decide) (by decide)
    (by decide) (by decide) (by decide)

/-- C2: claiming an already-claimed quest is a no-op (whole store unchanged,
no log, response still a success), and claiming is permitted directly from
`pending` (given the hunter exists, it succeeds with the full payload). -/
theorem C2_claim_idempotent_and_from_pending (db : DB) (qid : String) (now : Nat)
    (q : Quest) (hq : db.quests.find? (fun x => x.id == qid) = some q) :
    (q.status = "claimed" →
      claim_quest db qid now = (Except.ok ClaimResponse.alreadyClaimed, db)) ∧
    (q.status = "pending" →
      ∀ hu, db.hunters.find? (fun x => x.id == q.hunter_id) = some hu →
        ∃ lv rk ex te, (claim_quest db qid now).1 =
          Except.ok (ClaimResponse.claimed lv rk ex te)) := by
  constructor
  · intro hcl
    exact claim_quest_noop db qid now q hq hcl
  · intro hp hu hh
    refine ⟨hu.level + (hu.exp + q.exp_reward) / 100,
      compute_rank (hu.level + (hu.exp + q.exp_reward) / 100),
      (hu.exp + q.exp_reward) % 100, hu.total_exp + q.exp_reward, ?_⟩
    rw [claim_quest_success db qid now q hu hq (by simp [hp]) hh]

/-- C2 witness: quest "q2" of `dbA` is already claimed; quest "q1" is
pending and claimable. -/
theorem C2_witness :
    (questClaimed.status = "claimed" →
      claim_quest dbA "q2" 3 = (Except.ok ClaimResponse.alreadyClaimed, dbA)) ∧
    (questClaimed.status = "pending" →
      ∀ hu, dbA.hunters.find? (fun x => x.id == questClaimed.hunter_id) = some hu →
        ∃ lv rk ex te, (claim_quest dbA "q2" 3).1 =
          Except.ok (ClaimResponse.claimed lv rk ex te)) :=
  C2_claim_idempotent_and_from_pending dbA "q2" 3 questClaimed (by decide)

/-- C10: when claim fails because the referenced hunter is missing (quest
present and not yet claimed), the store is returned exactly as it was: the
quest is not marked claimed, no hunter or stats record is written, no log
entry is appended. -/
theorem C10_claim_hunter_missing_frame (db : DB) (qid : String) (now : Nat)
    (q : Quest) (hq : db.quests.find? (fun x => x.id == qid) = some q)
    (hst : q.status ≠ "claimed")
    (hh : db.hunters.find? (fun x => x.id == q.hunter_id) = none) :
    claim_quest db qid now = (Except.error (ApiError.notFound "Hunter not found"), db) :=
  claim_quest_hunter_missing db qid now q hq hst hh

/-- C10 witness: quest "q3" of `dbA` references hunter "ghost", which does
not exist. -/
theorem C10_witness :
    claim_quest dbA "q3" 2 = (Except.error (ApiError.notFound "Hunter not found"), dbA) :=
  C10_claim_hunter_missing_frame dbA "q3" 2 questOrphan (by decide) (by decide) (by decide)

/-- Monotonicity of `compute_rank` along the `RANKS` ladder. -/
theorem compute_rank_mono (a b : Nat) (hab : a ≤ b) :
    rankIndex (compute_rank a) ≤ rankIndex (compute_rank b) := by
  unfold compute_rank
  split_ifs <;> first | decide | (exfalso; omega)

/-- C3 counterexample: the code maps level 29 to "S" (29 ≥ 25 wins first),
not to "A" as the claim's boundary example states. -/
theorem C3_counterexample : compute_rank 29 = "S" ∧ compute_rank 29 ≠ "A" := by decide

/-- C3 (amended): `compute_rank` is a pure function of level, monotonic
non-decreasing along the `RANKS` ladder, with boundary values
compute_rank 29 = "S" (not "A"), compute_rank 30 = "Shadow Monarch",
compute_rank 4 = "E", compute_rank 5 = "D"; thresholds are checked from
highest to lowest with the first match winning (so 25-29 → "S",
20-24 → "A", 15-19 → "B", 10-14 → "C", 5-9 → "D", below 5 → "E"). -/
theorem C3_compute_rank_amended :
    (∀ a b : Nat, a ≤ b → rankIndex (compute_rank a) ≤ rankIndex (compute_rank b)) ∧
    compute_rank 29 = "S" ∧ compute_rank 30 = "Shadow Monarch" ∧
    compute_rank 4 = "E" ∧ compute_rank 5 = "D" ∧
    compute_rank 25 = "S" ∧ compute_rank 24 = "A" ∧ compute_rank 20 = "A" ∧
    compute_rank 19 = "B" ∧ compute_rank 15 = "B" ∧ compute_rank 14 = "C" ∧
    compute_rank 10 = "C" ∧ compute_rank 9 = "D" ∧ compute_rank 0 = "E" :=
  ⟨compute_rank_mono, by decide, by decide, by decide, by decide, by decide,
   by decide, by decide, by decide, by decide, by decide, by decide, by decide,
   by decide⟩

/-- C6: completing a quest that is already "completed" or "claimed" is a
no-op — it returns the current status and the untouched store (no log, no
timestamp change, no other record touched); otherwise it sets the status to
"completed", touches the updated timestamp, and appends the single success
log "Quest completed: \x7btitle\x7d". -/
theorem C6_complete_idempotent (db : DB) (qid : String) (now : Nat) (q : Quest)
    (hq : db.quests.find? (fun x => x.id == qid) = some q) :
    ((q.status = "completed" ∨ q.status = "claimed") →
      complete_quest db qid now = (Except.ok q.status, db)) ∧
    (q.status ≠ "completed" → q.status ≠ "claimed" →
      complete_quest db qid now = (Except.ok "completed", completeDB db q now) ∧
      (completeDB db q now).hunters = db.hunters ∧
      (completeDB db q now).stats = db.stats ∧
      (completeDB db q now).logs = db.logs ++
        [{ hunter_id := q.hunter_id, message := "Quest completed: " ++ q.title,
           level := "success", created_at := now }]) := by
  constructor
  · intro h
    unfold complete_quest
    rw [hq]
    rcases h with h | h <;> simp [h]
  · intro h1 h2
    refine ⟨?_, rfl, rfl, rfl⟩
    unfold complete_quest completeDB
    rw [hq]
    simp [h1, h2]

/-- C6 witness: quest "q4" of `dbA` is already completed (no-op branch);
the acting branch's hypotheses are not satisfied by "q4". -/
theorem C6_witness :
    ((questDone.status = "completed" ∨ questDone.status = "claimed") →
      complete_quest dbA "q4" 9 = (Except.ok questDone.status, dbA)) ∧
    (questDone.status ≠ "completed" → questDone.status ≠ "claimed" →
      complete_quest dbA "q4" 9 = (Except.ok "completed", completeDB dbA questDone 9) ∧
      (completeDB dbA questDone 9).hunters = dbA.hunters ∧
      (completeDB dbA questDone 9).stats = dbA.stats ∧
      (completeDB dbA questDone 9).logs = dbA.logs ++
        [{ hunter_id := questDone.hunter_id,
           message := "Quest completed: " ++ questDone.title,
           level := "success", created_at := 9 }]) :=
  C6_complete_idempotent dbA "q4" 9 questDone (by decide)

/-- C7: `claim` returns a 404 NotFound error exactly when the quest id
resolves to no quest ("Quest not found"), or the quest exists, is not yet
claimed, and its referenced hunter id resolves to no hunter
("Hunter not found"); in every other case the operation succeeds. -/
theorem C7_claim_error_characterization (db : DB) (qid : String) (now : Nat) :
    ∀ e : ApiError, (claim_quest db qid now).1 = Except.error e ↔
      (db.quests.find? (fun x => x.id == qid) = none ∧
        e = ApiError.notFound "Quest not found") ∨
      (∃ q, db.quests.find? (fun x => x.id == qid) = some q ∧ q.status ≠ "claimed" ∧
        db.hunters.find? (fun x => x.id == q.hunter_id) = none ∧
        e = ApiError.notFound "Hunter not found") := by
  intro e
  cases hq : db.quests.find? (fun x => x.id == qid) with
  | none =>
    rw [claim_quest_quest_missing db qid now hq]
    constructor
    · intro h
      have h' : Except.error (ApiError.notFound "Quest not found") =
          (Except.error e : Except ApiError ClaimResponse) := h
      injection h' with h'
      exact Or.inl ⟨rfl, h'.symm⟩
    · rintro (⟨-, rfl⟩ | ⟨q', hq', -, -, rfl⟩)
      · rfl
      · cases hq'
  | some q =>
    by_cases hcl : q.status = "claimed"
    · rw [claim_quest_noop db qid now q hq hcl]
      constructor
      · intro h
        have h' : Except.ok ClaimResponse.alreadyClaimed =
            (Except.error e : Except ApiError ClaimResponse) := h
        cases h'
      · rintro (⟨hnone, -⟩ | ⟨q', hq', hcl', -, -⟩)
        · cases hnone
        · injection hq' with hq''
          subst hq''
          exact absurd hcl hcl'
    · cases hh : db.hunters.find? (fun x => x.id == q.hunter_id) with
      | none =>
        rw [claim_quest_hunter_missing db qid now q hq hcl hh]
        constructor
        · intro h
          have h' : Except.error (ApiError.notFound "Hunter not found") =
              (Except.error e : Except ApiError ClaimResponse) := h
          injection h' with h'
          exact Or.inr ⟨q, rfl, hcl, hh, h'.symm⟩
        · rintro (⟨hnone, -⟩ | ⟨q', hq', -, -, rfl⟩)
          · cases hnone
          · rfl
      | some hu =>
        rw [claim_quest_success db qid now q hu hq hcl hh]
        constructor
        · intro h
          have h' : Except.ok (ClaimResponse.claimed
              (hu.level + (hu.exp + q.exp_reward) / 100)
              (compute_rank (hu.level + (hu.exp + q.exp_reward) / 100))
              ((hu.exp + q.exp_reward) % 100)
              (hu.total_exp + q.exp_reward)) =
              (Except.error e : Except ApiError ClaimResponse) := h
          cases h'
        · rintro (⟨hnone, -⟩ | ⟨q', hq', -, hh', -⟩)
          · cases hnone
          · injection hq' with hq''
            subst hq''
            rw [hh] at hh'
            cases hh'

/-- main.py lines 113-115: an existing hunter is returned verbatim and the
store is untouched. -/
theorem create_or_get_hunter_found (db : DB) (dn : String) (em : Option String)
    (nid : String) (now : Nat) (hx : Hunter)
    (hfind : db.hunters.find? (hunterQuery dn em) = some hx) :
    create_or_get_hunter db dn em nid now = (hx, db) := by
  unfold create_or_get_hunter
  rw [hfind]

/-- main.py lines 117-153: a fresh hunter is created together with its
default stats document and the welcome log. -/
theorem create_or_get_hunter_new (db : DB) (dn : String) (em : Option String)
    (nid : String) (now : Nat)
    (hfind : db.hunters.find? (hunterQuery dn em) = none) :
    create_or_get_hunter db dn em nid now =
      (defaultHunter dn em nid now,
       { db with hunters := db.hunters ++ [defaultHunter dn em nid now],
                 stats := db.stats ++ [defaultStats nid now],
                 logs := db.logs ++ [welcomeLog nid now] }) := by
  unfold create_or_get_hunter
  rw [hfind]

theorem claimDB_hunters (db : DB) (q : Quest) (hu : Hunter) (now : Nat) :
    (claimDB db q hu now).hunters =
      updateFirst (fun h => h.id == hu.id)
        (fun h => { h with exp := (hu.exp + q.exp_reward) % 100,
                           total_exp := hu.total_exp + q.exp_reward,
                           level := hu.level + (hu.exp + q.exp_reward) / 100,
                           rank := compute_rank (hu.level + (hu.exp + q.exp_reward) / 100),
                           updated_at := now }) db.hunters := rfl

theorem claimDB_stats (db : DB) (q : Quest) (hu : Hunter) (now : Nat) :
    (claimDB db q hu now).stats =
      (if q.stat_reward.isEmpty then db.stats
       else
         match db.stats.find? (fun t => t.hunter_id == hu.id) with
         | some s =>
           updateFirst (fun t => t.hunter_id == hu.id)
             (fun _ => { s with counters := applyStatReward s.counters q.stat_reward,
                                updated_at := now }) db.stats
         | none =>
           db.stats ++ [{ hunter_id := hu.id,
                          counters := applyStatReward [] q.stat_reward,
                          updated_at := now }]) := rfl

theorem claimDB_quests (db : DB) (q : Quest) (hu : Hunter) (now : Nat) :
    (claimDB db q hu now).quests =
      updateFirst (fun x => x.id == q.id)
        (fun x => { x with status := "claimed", updated_at := now }) db.quests := rfl

theorem claimDB_logs (db : DB) (q : Quest) (hu : Hunter) (now : Nat) :
    (claimDB db q hu now).logs =
      db.logs ++
        (if 100 ≤ hu.exp + q.exp_reward then
          [{ hunter_id := hu.id,
             message := levelUpMessage (hu.level + (hu.exp + q.exp_reward) / 100)
               (compute_rank (hu.level + (hu.exp + q.exp_reward) / 100)),
             level := "success", created_at := now }]
         else []) ++
        [{ hunter_id := hu.id, message := rewardMessage q.exp_reward q.stat_reward,
           level := "info", created_at := now }] := rfl

/-- §3 invariant on a stored hunter: rank is derived from level, exp is
strictly below LEVEL_STEP. -/
def hunterInvariant (h : Hunter) : Prop :=
  h.rank = compute_rank h.level ∧ h.exp < LEVEL_STEP

instance (h : Hunter) : Decidable (hunterInvariant h) := by
  unfold hunterInvariant
  infer_instance

/-- C4: both hunter-writing operations preserve the invariant
rank = compute_rank(level) ∧ exp < LEVEL_STEP = 100: create-or-get writes the
default hunter (rank "E", level 1, exp 0) which satisfies it, and claim
rewrites exp, level and rank together so the updated hunter satisfies it
again. -/
theorem C4_hunter_invariant (db : DB)
    (hdb : ∀ h ∈ db.hunters, hunterInvariant h)
    (dn : String) (em : Option String) (nid : String) (qid : String) (now : Nat) :
    (∀ h ∈ (create_or_get_hunter db dn em nid now).2.hunters, hunterInvariant h) ∧
    (∀ h ∈ (claim_quest db qid now).2.hunters, hunterInvariant h) := by
  constructor
  · cases hfind : db.hunters.find? (hunterQuery dn em) with
    | some hx =>
      rw [create_or_get_hunter_found db dn em nid now hx hfind]
      exact hdb
    | none =>
      rw [create_or_get_hunter_new db dn em nid now hfind]
      intro h hmem
      rcases List.mem_append.mp hmem with hm | hm
      · exact hdb h hm
      · rcases List.mem_singleton.mp hm with rfl
        constructor
        · rfl
        · show (0 : Nat) < LEVEL_STEP
          decide
  · cases hq : db.quests.find? (fun x => x.id == qid) with
    | none =>
      rw [claim_quest_quest_missing db qid now hq]
      exact hdb
    | some q =>
      by_cases hcl : q.status = "claimed"
      · rw [claim_quest_noop db qid now q hq hcl]
        exact hdb
      · cases hh : db.hunters.find? (fun x => x.id == q.hunter_id) with
        | none =>
          rw [claim_quest_hunter_missing db qid now q hq hcl hh]
          exact hdb
        | some hu =>
          rw [claim_quest_success db qid now q hu hq hcl hh]
          show ∀ h ∈ (claimDB db q hu now).hunters, hunterInvariant h
          rw [claimDB_hunters]
          refine mem_updateFirst _ _ _ hdb (fun y => ?_)
          refine ⟨rfl, ?_⟩
          show (hu.exp + q.exp_reward) % 100 < LEVEL_STEP
          exact Nat.mod_lt _ (by decide)

/-- C4 witness: `dbA` satisfies the invariant, and both operations keep it. -/
theorem C4_witness :
    (∀ h ∈ (create_or_get_hunter dbA "Sung" none "h9" 4).2.hunters, hunterInvariant h) ∧
    (∀ h ∈ (claim_quest dbA "q1" 4).2.hunters, hunterInvariant h) :=
  C4_hunter_invariant dbA (by decide) "Sung" none "h9" "q1" 4

/-- C5: claiming a quest with a non-empty stat_reward adds each listed delta
to the same-named counter of the hunter's existing Stats record (a missing
counter counts as 0 before the addition), and leaves every unlisted counter
unchanged.  `hnd` records that a Python dict has pairwise-distinct keys. -/
theorem C5_stat_accrual (db : DB) (qid : String) (now : Nat)
    (q : Quest) (hu : Hunter) (s : Stats)
    (hq : db.quests.find? (fun x => x.id == qid) = some q)
    (hst : q.status ≠ "claimed")
    (hh : db.hunters.find? (fun x => x.id == q.hunter_id) = some hu)
    (hs : db.stats.find? (fun t => t.hunter_id == hu.id) = some s)
    (hne : q.stat_reward.isEmpty = false)
    (hnd : (q.stat_reward.map Prod.fst).Nodup) :
    ∃ s', ((claim_quest db qid now).2).stats.find? (fun t => t.hunter_id == hu.id) =
        some s' ∧
      (∀ kv ∈ q.stat_reward, getStat s'.counters kv.1 = getStat s.counters kv.1 + kv.2) ∧
      (∀ k : String, (∀ kv ∈ q.stat_reward, kv.1 ≠ k) →
        getStat s'.counters k = getStat s.counters k) := by
  rw [claim_quest_success db qid now q hu hq hst hh]
  show ∃ s', (claimDB db q hu now).stats.find? (fun t => t.hunter_id == hu.id) =
      some s' ∧ _
  rw [claimDB_stats, hne]
  simp only [Bool.false_eq_true, if_false, hs]
  refine ⟨{ s with counters := applyStatReward s.counters q.stat_reward, updated_at := now }, ?_, ?_, ?_⟩
  · exact find?_updateFirst _ _ db.stats s hs (by simpa using List.find?_some hs)
  · exact fun kv hkv =>
      getStat_applyStatReward_of_mem q.stat_reward s.counters hnd kv hkv
  · exact fun k hk => getStat_applyStatReward_of_notMem q.stat_reward s.counters k hk

/-- C5 witness: quest "q1" carries stat_reward STR+2 and hunter "h1" has
STR = 1 in `statsA`; afterwards STR = 3 and the other counters are kept. -/
theorem C5_witness :
    ∃ s', ((claim_quest dbA "q1" 6).2).stats.find?
        (fun t => t.hunter_id == hunterA.id) = some s' ∧
      (∀ kv ∈ questA.stat_reward,
        getStat s'.counters kv.1 = getStat statsA.counters kv.1 + kv.2) ∧
      (∀ k : String, (∀ kv ∈ questA.stat_reward, kv.1 ≠ k) →
        getStat s'.counters k = getStat statsA.counters k) :=
  C5_stat_accrual dbA "q1" 6 questA hunterA statsA (by decide) (by decide)
    (by decide) (by decide) (by decide) (by decide)

/-- C8: a successful (non-no-op) claim appends the "Level Up!" success log
exactly when the level increased, and always appends the reward-summary info
log: two new entries when a level boundary was crossed, one otherwise. -/
theorem C8_claim_log_emission (db : DB) (qid : String) (now : Nat)
    (q : Quest) (hu : Hunter)
    (hq : db.quests.find? (fun x => x.id == qid) = some q)
    (hst : q.status ≠ "claimed")
    (hh : db.hunters.find? (fun x => x.id == q.hunter_id) = some hu) :
    ((claim_quest db qid now).2).logs =
      db.logs ++
        (if hu.level < hu.level + (hu.exp + q.exp_reward) / 100 then
          [{ hunter_id := hu.id,
             message := levelUpMessage (hu.level + (hu.exp + q.exp_reward) / 100)
               (compute_rank (hu.level + (hu.exp + q.exp_reward) / 100)),
             level := "success", created_at := now }]
         else []) ++
        [{ hunter_id := hu.id, message := rewardMessage q.exp_reward q.stat_reward,
           level := "info", created_at := now }] ∧
    ((claim_quest db qid now).2).logs.length =
      db.logs.length +
        (if hu.level < hu.level + (hu.exp + q.exp_reward) / 100 then 2 else 1) := by
  rw [claim_quest_success db qid now q hu hq hst hh]
  have hiff : (100 ≤ hu.exp + q.exp_reward) ↔
      hu.level < hu.level + (hu.exp + q.exp_reward) / 100 := by omega
  constructor
  · show (claimDB db q hu now).logs = _
    rw [claimDB_logs]
    by_cases hlev : 100 ≤ hu.exp + q.exp_reward
    · rw [if_pos hlev, if_pos (hiff.mp hlev)]
    · rw [if_neg hlev, if_neg (fun hx => hlev (hiff.mpr hx))]
  · show (claimDB db q hu now).logs.length = _
    rw [claimDB_logs]
    by_cases hlev : 100 ≤ hu.exp + q.exp_reward
    · rw [if_pos hlev, if_pos (hiff.mp hlev)]
      simp [List.length_append]
    · rw [if_neg hlev, if_neg (fun hx => hlev (hiff.mpr hx))]
      simp [List.length_append]

/-- C8 witness: claiming "q1" from `dbA` crosses three level boundaries, so
exactly the level-up entry and the reward entry are appended. -/
theorem C8_witness :
    ((claim_quest dbA "q1" 7).2).logs =
      dbA.logs ++
        (if hunterA.level < hunterA.level + (hunterA.exp + questA.exp_reward) / 100 then
          [{ hunter_id := hunterA.id,
             message := levelUpMessage
               (hunterA.level + (hunterA.exp + questA.exp_reward) / 100)
               (compute_rank (hunterA.level + (hunterA.exp + questA.exp_reward) / 100)),
             level := "success", created_at := 7 }]
         else []) ++
        [{ hunter_id := hunterA.id,
           message := rewardMessage questA.exp_reward questA.stat_reward,
           level := "info", created_at := 7 }] ∧
    ((claim_quest dbA "q1" 7).2).logs.length =
      dbA.logs.length +
        (if hunterA.level < hunterA.level + (hunterA.exp + questA.exp_reward) / 100
         then 2 else 1) :=
  C8_claim_log_emission dbA "q1" 7 questA hunterA (by decide) (by decide) (by decide)

/-- C9: calling create-or-get twice with the same (non-empty) email returns
the same hunter both times — the second call returns the stored record
verbatim and writes nothing — and across the two calls exactly one Hunter,
one Stats record (all counters 1) and one welcome log are created; lookup
uses the email when provided and the display name otherwise. -/
theorem C9_create_or_get_idempotent (db : DB) (dn1 dn2 : String) (em : String)
    (hem : em ≠ "")
    (hnone : db.hunters.find? (fun h => h.email == some em) = none)
    (id1 id2 : String) (t1 t2 : Nat) :
    (create_or_get_hunter (create_or_get_hunter db dn1 (some em) id1 t1).2
        dn2 (some em) id2 t2).1 =
      (create_or_get_hunter db dn1 (some em) id1 t1).1 ∧
    (create_or_get_hunter (create_or_get_hunter db dn1 (some em) id1 t1).2
        dn2 (some em) id2 t2).2 =
      (create_or_get_hunter db dn1 (some em) id1 t1).2 ∧
    (create_or_get_hunter db dn1 (some em) id1 t1).1.id = id1 ∧
    (create_or_get_hunter db dn1 (some em) id1 t1).2.hunters.length =
      db.hunters.length + 1 ∧
    (create_or_get_hunter db dn1 (some em) id1 t1).2.stats =
      db.stats ++ [defaultStats id1 t1] ∧
    (create_or_get_hunter db dn1 (some em) id1 t1).2.logs =
      db.logs ++ [welcomeLog id1 t1] ∧
    (defaultStats id1 t1).counters =
      [("STR", 1), ("INT", 1), ("DEX", 1), ("STA", 1), ("LUK", 1)] ∧
    (welcomeLog id1 t1).message = "System: You have awakened as a Hunter." ∧
    (∀ (db' : DB) (dn' nid' : String) (t' : Nat) (hx : Hunter),
      db'.hunters.find? (fun h => h.display_name == dn') = some hx →
      create_or_get_hunter db' dn' none nid' t' = (hx, db')) := by
  have hq1 : hunterQuery dn1 (some em) = fun h => h.email == some em := by
    simp [hunterQuery, emailTruthy, hem]
  have hq2 : hunterQuery dn2 (some em) = fun h => h.email == some em := by
    simp [hunterQuery, emailTruthy, hem]
  have hfirst := create_or_get_hunter_new db dn1 (some em) id1 t1
    (by rw [hq1]; exact hnone)
  have hsingle : ([defaultHunter dn1 (some em) id1 t1].find?
      (fun h => h.email == some em)) = some (defaultHunter dn1 (some em) id1 t1) := by
    simp [defaultHunter]
  have hfind2 : ((create_or_get_hunter db dn1 (some em) id1 t1).2).hunters.find?
      (hunterQuery dn2 (some em)) = some (defaultHunter dn1 (some em) id1 t1) := by
    rw [hfirst, hq2]
    show (db.hunters ++ [defaultHunter dn1 (some em) id1 t1]).find?
      (fun h => h.email == some em) = _
    rw [find?_append_of_none _ _ _ hnone]
    exact hsingle
  have hsecond := create_or_get_hunter_found
    ((create_or_get_hunter db dn1 (some em) id1 t1).2) dn2 (some em) id2 t2
    (defaultHunter dn1 (some em) id1 t1) hfind2
  refine ⟨?_, ?_, ?_, ?_, ?_, ?_, rfl, rfl, ?_⟩
  · rw [hsecond, hfirst]
  · rw [hsecond]
  · rw [hfirst]
    rfl
  · rw [hfirst]
    simp
  · rw [hfirst]
  · rw [hfirst]
  · intro db' dn' nid' t' hx hfind
    exact create_or_get_hunter_found db' dn' none nid' t' hx hfind

/-- C9 witness: two create-or-get calls for "sung@hunters.io" on `dbA`. -/
theorem C9_witness :
    (create_or_get_hunter (create_or_get_hunter dbA "Sung" (some "sung@hunters.io") "h2" 11).2
        "Sung Jinwoo" (some "sung@hunters.io") "h3" 12).1 =
      (create_or_get_hunter dbA "Sung" (some "sung@hunters.io") "h2" 11).1 ∧
    (create_or_get_hunter (create_or_get_hunter dbA "Sung" (some "sung@hunters.io") "h2" 11).2
        "Sung Jinwoo" (some "sung@hunters.io") "h3" 12).2 =
      (create_or_get_hunter dbA "Sung" (some "sung@hunters.io") "h2" 11).2 ∧
    (create_or_get_hunter dbA "Sung" (some "sung@hunters.io") "h2" 11).1.id = "h2" ∧
    (create_or_get_hunter dbA "Sung" (some "sung@hunters.io") "h2" 11).2.hunters.length =
      dbA.hunters.length + 1 ∧
    (create_or_get_hunter dbA "Sung" (some "sung@hunters.io") "h2" 11).2.stats =
      dbA.stats ++ [defaultStats "h2" 11] ∧
    (create_or_get_hunter dbA "Sung" (some "sung@hunters.io") "h2" 11).2.logs =
      dbA.logs ++ [welcomeLog "h2" 11] ∧
    (defaultStats "h2" 11).counters =
      [("STR", 1), ("INT", 1), ("DEX", 1), ("STA", 1), ("LUK", 1)] ∧
    (welcomeLog "h2" 11).message = "System: You have awakened as a Hunter." ∧
    (∀ (db' : DB) (dn' nid' : String) (t' : Nat) (hx : Hunter),
      db'.hunters.find? (fun h => h.display_name == dn') = some hx →
      create_or_get_hunter db' dn' none nid' t' = (hx, db')) :=
  C9_create_or_get_idempotent dbA "Sung" "Sung Jinwoo" "sung@hunters.io"
    (by decide) (by decide) "h2" "h3" 11 12
